import Mathlib

/-!
# FlapANN: the simulation driver (`GameManager`) and the fixed-timestep loop (`Game::run`)

A shallow embedding of `src/FlapANN/src/GameManager.cpp` and `src/FlapANN/src/Game.cpp`.

* `float` values are idealised as elements of a linearly ordered field `α`
  (the theorems about `sqrtf` take `α = ℝ`); rounding, infinities and NaN are not modelled.
* `sf::Time` is a signed count of microseconds (`Int`).
* Classes whose code is not part of the sources (`Bird`, the pipes generator, the genetic
  algorithm and its genomes) enter through the record `Deps`, one field per member function
  the driver calls.
* Calls that matter for the order of events are recorded in a list of `Effect`s.
* Line 83 of `GameManager.cpp` binds `const auto& birdPositionY` to the reference returned by
  `std::clamp`, which refers to a temporary that is destroyed at the end of that declaration;
  line 87 reads through the reference. The language leaves this read undefined: it enters as
  the field `readDangling` of `Deps`, about which nothing is assumed.
-/

namespace FlapANN

/-- The value of `sf::Vector2f`. -/
structure Vector2f (α : Type) where
  x : α
  y : α
  deriving DecidableEq

/-- The value of `sf::Vector2u`. -/
structure Vector2u where
  x : Nat
  y : Nat
  deriving DecidableEq

/-- The part of a `Bird` the driver reads or writes: position, velocity, score, the flag behind
`isDead()` and the texture it was built from. -/
structure Bird (α : Type) where
  position : Vector2f α
  velocity : Vector2f α
  birdScore : α
  dead : Bool
  texture : Nat
  deriving DecidableEq

/-- A genome: the scalar fitness the driver writes and the weights of the network it owns. -/
structure Genome (α : Type) where
  fitness : α
  weights : List α
  deriving DecidableEq

/-- The genetic algorithm object: its three constructor arguments and the current population. -/
structure GeneticAlgorithm (α : Type) where
  populationSize : Nat
  secondArgument : Nat
  topology : Nat × List Nat × Nat
  population : List (Genome α)

/-- The members of `GameManager` that carry simulation state. -/
structure GameManager (α P : Type) where
  mBirds : List (Bird α)
  mPipesGenerator : P
  mScreenSize : Vector2u
  mBirdTextures : List Nat
  mGeneticAlgorithm : GeneticAlgorithm α

/-- Member functions of collaborators whose code is outside the sources. `P` is the state of the
pipes generator. `nearestPipeFront p pos` is the position of
`sortedNearestPipeSetsInFront(pos).front()`, a container that `updateANN` takes to be non-empty;
`predict g input` is the output buffer handed to the callback of `performOnPredictedOutput`.
`readDangling bird v` is what a read through a reference to a destroyed temporary yields while
`bird` is processed, `v` being the value the temporary held: any value at all. -/
structure Deps (α P : Type) where
  sqrtf : α → α
  readDangling : Bird α → α → α
  newBird : Nat → Bird α
  birdUpdate : Int → Bird α → Bird α
  birdHandleEvents : Nat → Bird α → Bird α
  flap : Bird α → Bird α
  kill : Bird α → Bird α
  birdBoundsHeight : Bird α → α
  groundTextureHeight : Nat
  newPipesGenerator : Vector2u → P
  pipesUpdate : Int → P → P
  pipesRestart : P → P
  checkCollision : P → Bird α → P × Bird α
  nearestPipeFront : P → Vector2f α → Vector2f α
  predict : Genome α → List α → Nat → α
  createPopulation : GeneticAlgorithm α → GeneticAlgorithm α
  evolve : GeneticAlgorithm α → GeneticAlgorithm α

/-- Calls recorded while the driver runs. -/
inductive Effect (α : Type) where
  | gaAt (index : Nat)
  | setFitness (index : Nat) (value : α)
  | performOnPredictedOutput (index : Nat) (input : List α)
  | flap (bird : Nat)
  | clearBirds
  | pipesRestart
  | addBirds (numberOfBirds : Nat)
  | evolve
  deriving DecidableEq

/-- The two signed distances of a bird to the nearest pipe, the locals `horizontalDistance` and
`verticalDistance` of `updateANN`, both held by value. -/
structure Perception (α : Type) where
  horizontalDistance : α
  verticalDistance : α
  deriving DecidableEq

section Driver

variable {α P : Type} [LinearOrderedField α]

/-- The function `std::clamp(v, lo, hi)`. -/
def clamp (v lo hi : α) : α :=
  if v < lo then lo else if hi < v then hi else v

/-- The free function `normalize` of GameManager.cpp. -/
def normalize (StartRange EndRange value : α) : α :=
  let oldRange := EndRange - StartRange
  let newMax : α := 1
  let newMin : α := 0
  let newRange := newMax - newMin
  (((value - StartRange) * newRange) / oldRange) + newMin

/-- Lines 75 to 81 of `GameManager::updateANN`: the two signed distances of one bird. -/
def perceive (mScreenSize : Vector2u) (birdPosition pipePosition : Vector2f α) : Perception α :=
  let xDelta := birdPosition.x - pipePosition.x
  let horizontalDistance := clamp (normalize 0 (mScreenSize.x : α) |xDelta|) 0 1
  let horizontalDistance := if xDelta < 0 then horizontalDistance else -horizontalDistance
  let yDelta := birdPosition.y - pipePosition.y
  let verticalDistance := clamp (normalize 0 (mScreenSize.y : α) |yDelta|) 0 1
  let verticalDistance := if yDelta < 0 then verticalDistance else -verticalDistance
  ⟨horizontalDistance, verticalDistance⟩

/-- The value of the temporary of lines 83 to 85, `std::clamp(normalize(0, mScreenSize.y,
std::abs(y)), 0.f, 1.f)`, to which the reference `birdPositionY` is bound. The temporary is
destroyed when the declaration ends. -/
def birdPositionYTemporary (mScreenSize : Vector2u) (currentBird : Bird α) : α :=
  clamp (normalize 0 (mScreenSize.y : α) |currentBird.position.y|) 0 1

/-- The read of `birdPositionY` in the initializer list of line 87: a read through the
reference of line 83, whose temporary is gone by then. -/
def birdPositionYRead (deps : Deps α P) (mScreenSize : Vector2u) (currentBird : Bird α) : α :=
  deps.readDangling currentBird (birdPositionYTemporary mScreenSize currentBird)

/-- The penalty term of line 86:
`sqrtf(powf(horizontalDistance, 2) + powf(verticalDistance, 2)) / 10.f`. -/
def penalty (sqrtf : α → α) (p : Perception α) : α :=
  sqrtf (p.horizontalDistance ^ 2 + p.verticalDistance ^ 2) / 10

/-- The right-hand side of line 86, the value assigned to `currentGenome.fitness`. -/
def fitnessValue (sqrtf : α → α) (birdScore : α) (p : Perception α) : α :=
  birdScore - penalty sqrtf p

/-- The lambda of lines 87 to 93, run on the output buffer for the bird at list position
`iterator`. -/
def onPredictedOutput (flap : Bird α → Bird α) (iterator : Nat) (currentBird : Bird α)
    (output : Nat → α) : Bird α × List (Effect α) :=
  if output 0 > 1 / 2 then (flap currentBird, [Effect.flap iterator]) else (currentBird, [])

/-- Modelled from the spec: `at(index)` of the population, whose class is outside the sources,
is a bounds-checked access that fails outside `[0, size)` (section 4.3). -/
def populationAt (population : List (Genome α)) (index : Nat) : Option (Genome α) :=
  population.get? index

/-- Modelled from the spec: `performOnPredictedOutput(input, callback)` of a genome, whose class
is outside the sources, runs the network of the genome on `input` and hands the output buffer
to `callback` once; the fitness of the genome is not touched (section 4.2). -/
def performOnPredictedOutput {β : Type} (predict : Genome α → List α → Nat → α)
    (currentGenome : Genome α) (input : List α) (callback : (Nat → α) → β) : β :=
  callback (predict currentGenome input)

/-- The body of the loop of `GameManager::updateANN` for one bird and the genome returned by
`at(iterator)`. -/
def updateANNBody (deps : Deps α P) (mScreenSize : Vector2u) (pipes : P) (iterator : Nat)
    (currentBird : Bird α) (currentGenome : Genome α) :
    Bird α × Genome α × List (Effect α) :=
  let nearestPipe := deps.nearestPipeFront pipes currentBird.position
  let p := perceive mScreenSize currentBird.position nearestPipe
  let fitness := fitnessValue deps.sqrtf currentBird.birdScore p
  let currentGenome := { currentGenome with fitness := fitness }
  let input := [p.horizontalDistance, p.verticalDistance,
    birdPositionYRead deps mScreenSize currentBird]
  let r := performOnPredictedOutput deps.predict currentGenome input
    (onPredictedOutput deps.flap iterator currentBird)
  (r.1, currentGenome,
    [Effect.gaAt iterator, Effect.setFitness iterator fitness,
      Effect.performOnPredictedOutput iterator input] ++ r.2)

/-- The perception computed in the loop body for `currentBird`. -/
def birdPerception (deps : Deps α P) (mScreenSize : Vector2u) (pipes : P)
    (currentBird : Bird α) : Perception α :=
  perceive mScreenSize currentBird.position (deps.nearestPipeFront pipes currentBird.position)

/-- The initializer list `{ horizontalDistance, verticalDistance, birdPositionY }`, with the
value that the read of `birdPositionY` yields. -/
def networkInput (p : Perception α) (birdPositionY : α) : List α :=
  [p.horizontalDistance, p.verticalDistance, birdPositionY]

/-- The output buffer the callback of the loop body receives for `currentBird`. -/
def networkOutput (deps : Deps α P) (mScreenSize : Vector2u) (pipes : P)
    (currentBird : Bird α) (currentGenome : Genome α) : Nat → α :=
  deps.predict
    (updateANNBody deps mScreenSize pipes 0 currentBird currentGenome).2.1
    (networkInput (birdPerception deps mScreenSize pipes currentBird)
      (birdPositionYRead deps mScreenSize currentBird))

/-- The loop of `GameManager::updateANN` from position `iterator` on; a failing `at(iterator)`
ends the run with `none`. -/
def updateANNLoop (deps : Deps α P) (mScreenSize : Vector2u) (pipes : P) :
    Nat → List (Bird α) → List (Genome α) →
      Option (List (Bird α) × List (Genome α) × List (Effect α))
  | _, [], population => some ([], population, [])
  | iterator, currentBird :: rest, population =>
    match populationAt population iterator with
    | none => none
    | some currentGenome =>
      let r := updateANNBody deps mScreenSize pipes iterator currentBird currentGenome
      match updateANNLoop deps mScreenSize pipes (iterator + 1) rest
          (population.set iterator r.2.1) with
      | none => none
      | some (birds, population, effects) => some (r.1 :: birds, population, r.2.2 ++ effects)

/-- The member function `GameManager::updateANN`. -/
def updateANN (deps : Deps α P) (s : GameManager α P) :
    Option (GameManager α P × List (Effect α)) :=
  match updateANNLoop deps s.mScreenSize s.mPipesGenerator 0 s.mBirds
      s.mGeneticAlgorithm.population with
  | none => none
  | some (birds, population, effects) =>
    some ({ s with mBirds := birds,
                   mGeneticAlgorithm := { s.mGeneticAlgorithm with population := population } },
          effects)

/-- The member function `GameManager::allBirdsDead`. -/
def allBirdsDead (s : GameManager α P) : Bool :=
  s.mBirds.all (fun bird => bird.dead && decide (bird.position.x < 0))

/-- The member function `GameManager::controlTopScreenBoundaries`. -/
def controlTopScreenBoundaries (deps : Deps α P) (currentBird : Bird α) : Bird α :=
  if currentBird.position.y < 0 then deps.kill currentBird else currentBird

/-- The local `groundTop` of `controlBottomScreenBoundaries`: a difference of two 32-bit
unsigned values. -/
def groundTop (deps : Deps α P) (mScreenSize : Vector2u) : Nat :=
  (mScreenSize.y % 4294967296 + (4294967296 - deps.groundTextureHeight % 4294967296))
    % 4294967296

/-- The member function `GameManager::controlBottomScreenBoundaries`. -/
def controlBottomScreenBoundaries (deps : Deps α P) (mScreenSize : Vector2u)
    (currentBird : Bird α) : Bird α :=
  if currentBird.position.y + deps.birdBoundsHeight currentBird
      > (groundTop deps mScreenSize : α) then
    let currentBird := deps.kill currentBird
    let currentBird :=
      { currentBird with position := ⟨currentBird.position.x, (groundTop deps mScreenSize : α)⟩ }
    { currentBird with velocity := ⟨-50, 0⟩ }
  else currentBird

/-- The member function `GameManager::controlGameBoundaries`. -/
def controlGameBoundaries (deps : Deps α P) (mScreenSize : Vector2u) (currentBird : Bird α) :
    Bird α :=
  controlBottomScreenBoundaries deps mScreenSize (controlTopScreenBoundaries deps currentBird)

/-- The member function `GameManager::updateBirds`. -/
def updateBirds (deps : Deps α P) (deltaTime : Int) (s : GameManager α P) : GameManager α P :=
  { s with mBirds := s.mBirds.map (fun currentBird =>
      controlGameBoundaries deps s.mScreenSize (deps.birdUpdate deltaTime currentBird)) }

/-- The loop of `GameManager::handleCollision`, the pipes generator threaded through the calls
of `checkCollision`. -/
def handleCollisionLoop (deps : Deps α P) : P → List (Bird α) → P × List (Bird α)
  | pipes, [] => (pipes, [])
  | pipes, bird :: rest =>
    let r := deps.checkCollision pipes bird
    let t := handleCollisionLoop deps r.1 rest
    (t.1, r.2 :: t.2)

/-- The member function `GameManager::handleCollision`. -/
def handleCollision (deps : Deps α P) (s : GameManager α P) : GameManager α P :=
  let r := handleCollisionLoop deps s.mPipesGenerator s.mBirds
  { s with mPipesGenerator := r.1, mBirds := r.2 }

/-- The member function `GameManager::handleEvents`. -/
def handleEvents (deps : Deps α P) (event : Nat) (s : GameManager α P) : GameManager α P :=
  { s with mBirds := s.mBirds.map (deps.birdHandleEvents event) }

/-- The member function `GameManager::addBirds`. With an empty `mBirdTextures` the modulo of
the source is undefined; the model then builds the birds from texture `0`. -/
def addBirds (deps : Deps α P) (screenSize : Vector2u) (numberOfBirds : Nat)
    (s : GameManager α P) : GameManager α P :=
  let birdTextureSize := s.mBirdTextures.length
  { s with mBirds := s.mBirds ++ (List.range numberOfBirds).map (fun birdIndex =>
      let textureIndex := birdIndex % birdTextureSize
      let bird := deps.newBird (s.mBirdTextures.getD textureIndex 0)
      { bird with position := ⟨(screenSize.x : α) / 4, (screenSize.y : α) / 2⟩ }) }

/-- The member function `GameManager::restartGame`, with the calls it makes. -/
def restartGame (deps : Deps α P) (s : GameManager α P) : GameManager α P × List (Effect α) :=
  let s := { s with mBirds := [] }
  let s := { s with mPipesGenerator := deps.pipesRestart s.mPipesGenerator }
  let s := addBirds deps s.mScreenSize 150 s
  (s, [Effect.clearBirds, Effect.pipesRestart, Effect.addBirds 150])

/-- The state in which `GameManager::update` calls `updateANN`: the pipes and the birds have
been updated (the background and the ground are drawing nodes without simulation state). -/
def updateUntilANN (deps : Deps α P) (deltaTime : Int) (s : GameManager α P) :
    GameManager α P :=
  let s := { s with mPipesGenerator := deps.pipesUpdate deltaTime s.mPipesGenerator }
  updateBirds deps deltaTime s

/-- The state in which `GameManager::update` evaluates `allBirdsDead()`, with the calls made up
to there: `updateBirds`, `updateANN` and `handleCollision` are done. -/
def updateUntilCheck (deps : Deps α P) (deltaTime : Int) (s : GameManager α P) :
    Option (GameManager α P × List (Effect α)) :=
  match updateANN deps (updateUntilANN deps deltaTime s) with
  | none => none
  | some (s, effects) => some (handleCollision deps s, effects)

/-- The `if (allBirdsDead())` block that ends `GameManager::update`. -/
def updateEndOfGeneration (deps : Deps α P) (s : GameManager α P) :
    GameManager α P × List (Effect α) :=
  if allBirdsDead s then
    let r := restartGame deps s
    let s := r.1
    let s := { s with mGeneticAlgorithm := deps.evolve s.mGeneticAlgorithm }
    (s, r.2 ++ [Effect.evolve])
  else (s, [])

/-- The member function `GameManager::update`. -/
def update (deps : Deps α P) (deltaTime : Int) (s : GameManager α P) :
    Option (GameManager α P × List (Effect α)) :=
  match updateUntilCheck deps deltaTime s with
  | none => none
  | some (s, effects) =>
    let r := updateEndOfGeneration deps s
    some (r.1, effects ++ r.2)

/-- The constructor of `GameManager`. -/
def GameManager.construct (deps : Deps α P) (screenSize : Vector2u) (birdTextures : List Nat) :
    GameManager α P :=
  let s : GameManager α P :=
    { mBirds := []
      mPipesGenerator := deps.newPipesGenerator screenSize
      mScreenSize := screenSize
      mBirdTextures := birdTextures
      mGeneticAlgorithm :=
        { populationSize := 150, secondArgument := 5, topology := (3, [8], 1), population := [] } }
  let s := (restartGame deps s).1
  { s with mGeneticAlgorithm := deps.createPopulation s.mGeneticAlgorithm }

/-- The states a `GameManager` goes through from its construction on. -/
inductive Reachable (deps : Deps α P) : GameManager α P → Prop where
  | construct (screenSize : Vector2u) (birdTextures : List Nat) :
      Reachable deps (GameManager.construct deps screenSize birdTextures)
  | update (deltaTime : Int) (s s1 : GameManager α P) (effects : List (Effect α)) :
      Reachable deps s → update deps deltaTime s = some (s1, effects) → Reachable deps s1
  | handleEvents (event : Nat) (s : GameManager α P) :
      Reachable deps s → Reachable deps (handleEvents deps event s)
  | restartGame (s : GameManager α P) :
      Reachable deps s → Reachable deps (restartGame deps s).1

/-- Modelled from the spec: the genetic algorithm, whose class is outside the sources, keeps the
size of its population (sections 3, 4.3 and 8): `createPopulation` builds as many genomes as the algorithm was constructed for, and `evolve`
keeps the size of the population. -/
structure Deps.KeepsPopulationSize (deps : Deps α P) : Prop where
  createPopulation_length : ∀ ga : GeneticAlgorithm α,
    (deps.createPopulation ga).population.length = ga.populationSize
  createPopulation_size : ∀ ga : GeneticAlgorithm α,
    (deps.createPopulation ga).populationSize = ga.populationSize
  evolve_length : ∀ ga : GeneticAlgorithm α,
    (deps.evolve ga).population.length = ga.population.length
  evolve_size : ∀ ga : GeneticAlgorithm α,
    (deps.evolve ga).populationSize = ga.populationSize

/-- The indices passed to `at()` in a list of calls, in the order of the calls. -/
def gaAtIndices : List (Effect α) → List Nat
  | [] => []
  | Effect.gaAt index :: rest => index :: gaAtIndices rest
  | _ :: rest => gaAtIndices rest

/-- The calls made by `updateANN`, as opposed to those of the end of a generation. -/
def Effect.isANN : Effect α → Bool
  | Effect.gaAt _ => true
  | Effect.setFitness _ _ => true
  | Effect.performOnPredictedOutput _ _ => true
  | Effect.flap _ => true
  | _ => false

/-- In a list of calls, both `a` and `b` occur and the first `a` comes before the first `b`. -/
def callsBefore (a b : Effect α) (effects : List (Effect α)) : Prop :=
  a ∈ effects ∧ b ∈ effects ∧ effects.indexOf a < effects.indexOf b

instance callsBefore.decidable (a b : Effect α) (effects : List (Effect α)) :
    Decidable (callsBefore a b effects) := by
  unfold callsBefore
  infer_instance

/-- The order claimed for the end of a generation: `evolve` before each call of the reset. -/
def evolvePrecedesReset (effects : List (Effect α)) : Prop :=
  callsBefore Effect.evolve Effect.clearBirds effects ∧
  callsBefore Effect.evolve Effect.pipesRestart effects ∧
  callsBefore Effect.evolve (Effect.addBirds 150) effects

/-- The order of the code at the end of a generation: each call of the reset before `evolve`. -/
def resetPrecedesEvolve (effects : List (Effect α)) : Prop :=
  callsBefore Effect.clearBirds Effect.evolve effects ∧
  callsBefore Effect.pipesRestart Effect.evolve effects ∧
  callsBefore (Effect.addBirds 150) Effect.evolve effects

/-- A concrete set of collaborators for examples: a read through the dangling reference that
yields `-1`, birds that stand still, a `flap` that sets
the vertical velocity, a `kill` that sets the flag behind `isDead()`, one pipe reference point
at `(383, 588)`, a network whose output is `0`, a population of genomes with fitness `0` and an
`evolve` that resets every fitness. -/
def exampleDeps (sqrtf : α → α) : Deps α Unit where
  sqrtf := sqrtf
  readDangling := fun _ _ => -1
  newBird := fun texture => ⟨⟨0, 0⟩, ⟨0, 0⟩, 0, false, texture⟩
  birdUpdate := fun _ bird => bird
  birdHandleEvents := fun _ bird => bird
  flap := fun bird => { bird with velocity := ⟨bird.velocity.x, -200⟩ }
  kill := fun bird => { bird with dead := true }
  birdBoundsHeight := fun _ => 24
  groundTextureHeight := 112
  newPipesGenerator := fun _ => ()
  pipesUpdate := fun _ pipes => pipes
  pipesRestart := fun pipes => pipes
  checkCollision := fun pipes bird => (pipes, bird)
  nearestPipeFront := fun _ _ => ⟨383, 588⟩
  predict := fun _ _ _ => 0
  createPopulation := fun ga =>
    { ga with population := List.replicate ga.populationSize ⟨0, []⟩ }
  evolve := fun ga =>
    { ga with population := ga.population.map (fun genome => { genome with fitness := 0 }) }

/-- A bird with score 10 that has died and has drifted out of the screen on the left. -/
def goneBird : Bird α := ⟨⟨-1, 300⟩, ⟨-50, 0⟩, 10, true, 0⟩

/-- A state of the game on a 1280 x 720 screen in which all 150 birds are dead and to the left
of the screen, with a population of 150 genomes. -/
def exampleEndOfGeneration : GameManager α Unit where
  mBirds := List.replicate 150 goneBird
  mPipesGenerator := ()
  mScreenSize := ⟨1280, 720⟩
  mBirdTextures := [0, 1, 2]
  mGeneticAlgorithm :=
    { populationSize := 150, secondArgument := 5, topology := (3, [8], 1),
      population := List.replicate 150 ⟨0, []⟩ }

instance evolvePrecedesReset.decidable (effects : List (Effect α)) :
    Decidable (evolvePrecedesReset effects) := by
  unfold evolvePrecedesReset
  infer_instance

instance resetPrecedesEvolve.decidable (effects : List (Effect α)) :
    Decidable (resetPrecedesEvolve effects) := by
  unfold resetPrecedesEvolve
  infer_instance

end Driver

section Loop

/-- Calls made by `Game::run`. -/
inductive LoopEffect where
  | processEvents
  | update (deltaTime : Int)
  | render
  deriving DecidableEq

/-- The inner `while (frameTimeElapsed > TIME_PER_FRAME)` loop of `Game::run`, with a bound on
the number of times the condition is evaluated. The result is the accumulator on exit and the
calls made. -/
def runInnerLoop (TIME_PER_FRAME : Int) : Nat → Int → Option (Int × List LoopEffect)
  | 0, _ => none
  | fuel + 1, frameTimeElapsed =>
    if frameTimeElapsed > TIME_PER_FRAME then
      let frameTimeElapsed := frameTimeElapsed - TIME_PER_FRAME
      match runInnerLoop TIME_PER_FRAME fuel frameTimeElapsed with
      | none => none
      | some (final, effects) =>
        some (final, LoopEffect.processEvents :: LoopEffect.update TIME_PER_FRAME :: effects)
    else some (frameTimeElapsed, [])

/-- One pass of the outer loop of `Game::run`: the clock reading is added, the inner loop runs,
then `render()`. -/
def runFrame (TIME_PER_FRAME : Int) (fuel : Nat) (frameTimeElapsed clockRestart : Int) :
    Option (Int × List LoopEffect) :=
  match runInnerLoop TIME_PER_FRAME fuel (frameTimeElapsed + clockRestart) with
  | none => none
  | some (final, effects) => some (final, effects ++ [LoopEffect.render])

/-- The calls of `n` passes of the inner loop. -/
def innerLoopCalls (TIME_PER_FRAME : Int) : Nat → List LoopEffect
  | 0 => []
  | n + 1 =>
    LoopEffect.processEvents :: LoopEffect.update TIME_PER_FRAME
      :: innerLoopCalls TIME_PER_FRAME n

end Loop

/-! ## Arithmetic of the perception -/

section Numeric

variable {α P : Type} [LinearOrderedField α]

theorem clamp_nonneg (v : α) : 0 ≤ clamp v 0 1 := by
  unfold clamp
  split_ifs with h1 h2
  · exact le_refl 0
  · exact zero_le_one
  · exact not_lt.mp h1

theorem clamp_le_one (v : α) : clamp v 0 1 ≤ 1 := by
  unfold clamp
  split_ifs with h1 h2
  · exact zero_le_one
  · exact le_refl 1
  · exact not_lt.mp h2

theorem clamp_eq_min_max (v : α) : clamp v 0 1 = min (max v 0) 1 := by
  unfold clamp
  split_ifs with h1 h2
  · rw [max_eq_right h1.le, min_eq_left zero_le_one]
  · rw [max_eq_left (zero_le_one.trans h2.le), min_eq_right h2.le]
  · rw [max_eq_left (not_lt.mp h1), min_eq_left (not_lt.mp h2)]

theorem clamp_mono {v w : α} (h : v ≤ w) : clamp v 0 1 ≤ clamp w 0 1 := by
  rw [clamp_eq_min_max, clamp_eq_min_max]
  exact min_le_min (max_le_max h (le_refl 0)) (le_refl 1)

theorem normalize_zero (S v : α) : normalize 0 S v = v / S := by
  simp [normalize]

theorem clamp_normalize_eq_zero_iff {S : α} (hS : 0 < S) (delta : α) :
    clamp (normalize 0 S |delta|) 0 1 = 0 ↔ delta = 0 := by
  rw [normalize_zero]
  constructor
  · intro h
    by_contra hne
    have hpos : 0 < |delta| / S := div_pos (abs_pos.mpr hne) hS
    unfold clamp at h
    split_ifs at h with h1 h2
    · exact absurd hpos (not_lt.mpr h1.le)
    · exact one_ne_zero h
    · exact absurd h hpos.ne'
  · intro h
    subst h
    simp [clamp]

/-- The record of signed distances in terms of the offsets. -/
theorem perceive_horizontal (mScreenSize : Vector2u) (birdPosition pipePosition : Vector2f α) :
    (perceive mScreenSize birdPosition pipePosition).horizontalDistance =
      if birdPosition.x - pipePosition.x < 0
      then clamp (normalize 0 (mScreenSize.x : α) |birdPosition.x - pipePosition.x|) 0 1
      else -clamp (normalize 0 (mScreenSize.x : α) |birdPosition.x - pipePosition.x|) 0 1 :=
  rfl

theorem perceive_vertical (mScreenSize : Vector2u) (birdPosition pipePosition : Vector2f α) :
    (perceive mScreenSize birdPosition pipePosition).verticalDistance =
      if birdPosition.y - pipePosition.y < 0
      then clamp (normalize 0 (mScreenSize.y : α) |birdPosition.y - pipePosition.y|) 0 1
      else -clamp (normalize 0 (mScreenSize.y : α) |birdPosition.y - pipePosition.y|) 0 1 :=
  rfl

/-- The temporary of line 83 holds a value of `[0, 1]` for as long as it lives. -/
theorem birdPositionYTemporary_mem (mScreenSize : Vector2u) (currentBird : Bird α) :
    0 ≤ birdPositionYTemporary mScreenSize currentBird ∧
      birdPositionYTemporary mScreenSize currentBird ≤ 1 :=
  ⟨clamp_nonneg _, clamp_le_one _⟩

theorem abs_perceive_horizontal (mScreenSize : Vector2u)
    (birdPosition pipePosition : Vector2f α) :
    |(perceive mScreenSize birdPosition pipePosition).horizontalDistance| =
      clamp (normalize 0 (mScreenSize.x : α) |birdPosition.x - pipePosition.x|) 0 1 := by
  rw [perceive_horizontal]
  split_ifs
  · exact abs_of_nonneg (clamp_nonneg _)
  · rw [abs_neg]
    exact abs_of_nonneg (clamp_nonneg _)

theorem abs_perceive_vertical (mScreenSize : Vector2u)
    (birdPosition pipePosition : Vector2f α) :
    |(perceive mScreenSize birdPosition pipePosition).verticalDistance| =
      clamp (normalize 0 (mScreenSize.y : α) |birdPosition.y - pipePosition.y|) 0 1 := by
  rw [perceive_vertical]
  split_ifs
  · exact abs_of_nonneg (clamp_nonneg _)
  · rw [abs_neg]
    exact abs_of_nonneg (clamp_nonneg _)

theorem updateANNBody_effects (deps : Deps α P) (mScreenSize : Vector2u) (pipes : P)
    (iterator : Nat) (currentBird : Bird α) (currentGenome : Genome α) :
    (updateANNBody deps mScreenSize pipes iterator currentBird currentGenome).2.2 =
      [Effect.gaAt iterator,
        Effect.setFitness iterator (fitnessValue deps.sqrtf currentBird.birdScore
          (birdPerception deps mScreenSize pipes currentBird)),
        Effect.performOnPredictedOutput iterator
          (networkInput (birdPerception deps mScreenSize pipes currentBird)
            (birdPositionYRead deps mScreenSize currentBird))] ++
      (onPredictedOutput deps.flap iterator currentBird
        (networkOutput deps mScreenSize pipes currentBird currentGenome)).2 :=
  rfl

theorem updateANNBody_bird (deps : Deps α P) (mScreenSize : Vector2u) (pipes : P)
    (iterator : Nat) (currentBird : Bird α) (currentGenome : Genome α) :
    (updateANNBody deps mScreenSize pipes iterator currentBird currentGenome).1 =
      (onPredictedOutput deps.flap iterator currentBird
        (networkOutput deps mScreenSize pipes currentBird currentGenome)).1 :=
  rfl

theorem updateANNBody_genome (deps : Deps α P) (mScreenSize : Vector2u) (pipes : P)
    (iterator : Nat) (currentBird : Bird α) (currentGenome : Genome α) :
    (updateANNBody deps mScreenSize pipes iterator currentBird currentGenome).2.1 =
      { currentGenome with
        fitness := fitnessValue deps.sqrtf currentBird.birdScore
          (birdPerception deps mScreenSize pipes currentBird) } :=
  rfl

theorem performOnPredictedOutput_mem_body (deps : Deps α P) (mScreenSize : Vector2u) (pipes : P)
    (iterator : Nat) (currentBird : Bird α) (currentGenome : Genome α) (input : List α) :
    Effect.performOnPredictedOutput iterator input ∈
        (updateANNBody deps mScreenSize pipes iterator currentBird currentGenome).2.2 ↔
      input = networkInput (birdPerception deps mScreenSize pipes currentBird)
        (birdPositionYRead deps mScreenSize currentBird) := by
  rw [updateANNBody_effects]
  unfold onPredictedOutput
  split_ifs <;> simp

/-- The two distances handed to the network lie in `[-1, 1]`. -/
theorem distances_in_range (mScreenSize : Vector2u) (birdPosition pipePosition : Vector2f α) :
    (-1 ≤ (perceive mScreenSize birdPosition pipePosition).horizontalDistance ∧
      (perceive mScreenSize birdPosition pipePosition).horizontalDistance ≤ 1) ∧
    (-1 ≤ (perceive mScreenSize birdPosition pipePosition).verticalDistance ∧
      (perceive mScreenSize birdPosition pipePosition).verticalDistance ≤ 1) := by
  constructor
  · rw [← abs_le, abs_perceive_horizontal]
    exact clamp_le_one _
  · rw [← abs_le, abs_perceive_vertical]
    exact clamp_le_one _

/-- The perception of the bird of the example: 384 pixels before and 288 pixels above the pipe
reference point on a 1280 x 720 screen. -/
theorem perceive_example :
    perceive ⟨1280, 720⟩ (⟨-1, 300⟩ : Vector2f ℚ) ⟨383, 588⟩ = ⟨3 / 10, 2 / 5⟩ := by
  decide!

/-- The temporary of line 83 for the bird of the example on a 1280 x 720 screen. -/
theorem birdPositionYTemporary_example :
    birdPositionYTemporary ⟨1280, 720⟩ (goneBird : Bird ℚ) = 5 / 12 := by
  decide!

/-- C2, where the code departs from the claim: the input that `updateANN` hands to the network
is the two distances followed by what the read through the reference `birdPositionY` yields
after the temporary it was bound to is gone. The temporary held a value of `[0, 1]`, the two
distances lie in `[-1, 1]`, but the third entry is whatever the read gives: for the bird of the
example on a 1280 x 720 screen the temporary held `5/12`, and with a read that yields `-1` the
network receives `[3/10, 2/5, -1]`, whose third entry is not in `[0, 1]`. -/
theorem third_input_read_after_lifetime (deps : Deps α P) (mScreenSize : Vector2u) (pipes : P)
    (iterator : Nat) (currentBird : Bird α) (currentGenome : Genome α) :
    (∀ input, Effect.performOnPredictedOutput iterator input ∈
        (updateANNBody deps mScreenSize pipes iterator currentBird currentGenome).2.2 ↔
      input =
        [(perceive mScreenSize currentBird.position
            (deps.nearestPipeFront pipes currentBird.position)).horizontalDistance,
          (perceive mScreenSize currentBird.position
            (deps.nearestPipeFront pipes currentBird.position)).verticalDistance,
          deps.readDangling currentBird
            (clamp (normalize 0 (mScreenSize.y : α) |currentBird.position.y|) 0 1)]) ∧
    (∀ input, Effect.performOnPredictedOutput 0 input ∈
        (updateANNBody (exampleDeps Rat.sqrt) ⟨1280, 720⟩ () 0 (goneBird : Bird ℚ)
          ⟨0, []⟩).2.2 ↔
      input = [3 / 10, 2 / 5, -1]) ∧
    birdPositionYTemporary ⟨1280, 720⟩ (goneBird : Bird ℚ) = 5 / 12 ∧
    ¬ ((0 : ℚ) ≤ -1 ∧ (-1 : ℚ) ≤ 1) := by
  refine ⟨?_, ?_, birdPositionYTemporary_example, ?_⟩
  · intro input
    exact performOnPredictedOutput_mem_body deps mScreenSize pipes iterator currentBird
      currentGenome input
  · intro input
    rw [performOnPredictedOutput_mem_body]
    have hp : birdPerception (exampleDeps Rat.sqrt) ⟨1280, 720⟩ () (goneBird : Bird ℚ)
        = ⟨3 / 10, 2 / 5⟩ := perceive_example
    have hy : birdPositionYRead (exampleDeps Rat.sqrt) ⟨1280, 720⟩ (goneBird : Bird ℚ) = -1 :=
      rfl
    rw [hp, hy]
    rfl
  · intro h
    exact absurd h.1 (by norm_num)

/-- A bird behind and below the pipe reference point gets negative distances; far away, the
magnitude is clamped to 1. -/
theorem perceive_example_behind :
    perceive ⟨1280, 720⟩ (⟨2000, 600⟩ : Vector2f ℚ) ⟨383, 588⟩ = ⟨-1, -1 / 60⟩ := by
  decide!

/-- C3: for a screen of positive width and height, each distance computed by `updateANN` has
the magnitude `|delta| / S` clamped to `[0, 1]`, is non-negative when `delta < 0` and
non-positive when `delta >= 0`, on the horizontal and on the vertical axis; these two numbers
are the first two entries of the input handed to the network. -/
theorem distance_magnitude_and_sign (deps : Deps α P) (mScreenSize : Vector2u) (pipes : P)
    (iterator : Nat) (currentBird : Bird α) (currentGenome : Genome α)
    (hx : 0 < mScreenSize.x) (hy : 0 < mScreenSize.y) :
    ∃ h v y : α,
      Effect.performOnPredictedOutput iterator [h, v, y] ∈
        (updateANNBody deps mScreenSize pipes iterator currentBird currentGenome).2.2 ∧
      (|h| = min (max (|currentBird.position.x
            - (deps.nearestPipeFront pipes currentBird.position).x| / (mScreenSize.x : α)) 0) 1 ∧
        (currentBird.position.x - (deps.nearestPipeFront pipes currentBird.position).x < 0 →
          0 ≤ h) ∧
        (0 ≤ currentBird.position.x - (deps.nearestPipeFront pipes currentBird.position).x →
          h ≤ 0)) ∧
      (|v| = min (max (|currentBird.position.y
            - (deps.nearestPipeFront pipes currentBird.position).y| / (mScreenSize.y : α)) 0) 1 ∧
        (currentBird.position.y - (deps.nearestPipeFront pipes currentBird.position).y < 0 →
          0 ≤ v) ∧
        (0 ≤ currentBird.position.y - (deps.nearestPipeFront pipes currentBird.position).y →
          v ≤ 0)) := by
  -- positive extents keep the divisions of `normalize` where the field agrees with `float`
  have _hx : (0 : α) < (mScreenSize.x : α) := Nat.cast_pos.mpr hx
  have _hy : (0 : α) < (mScreenSize.y : α) := Nat.cast_pos.mpr hy
  refine ⟨(birdPerception deps mScreenSize pipes currentBird).horizontalDistance,
    (birdPerception deps mScreenSize pipes currentBird).verticalDistance,
    birdPositionYRead deps mScreenSize currentBird,
    ?_, ⟨?_, ?_, ?_⟩, ⟨?_, ?_, ?_⟩⟩
  · exact (performOnPredictedOutput_mem_body deps mScreenSize pipes iterator currentBird
      currentGenome _).mpr rfl
  · unfold birdPerception
    rw [abs_perceive_horizontal, clamp_eq_min_max, normalize_zero]
  · intro hneg
    unfold birdPerception
    rw [perceive_horizontal, if_pos hneg]
    exact clamp_nonneg _
  · intro hpos
    unfold birdPerception
    rw [perceive_horizontal, if_neg (not_lt.mpr hpos)]
    exact neg_nonpos.mpr (clamp_nonneg _)
  · unfold birdPerception
    rw [abs_perceive_vertical, clamp_eq_min_max, normalize_zero]
  · intro hneg
    unfold birdPerception
    rw [perceive_vertical, if_pos hneg]
    exact clamp_nonneg _
  · intro hpos
    unfold birdPerception
    rw [perceive_vertical, if_neg (not_lt.mpr hpos)]
    exact neg_nonpos.mpr (clamp_nonneg _)

/-- The hypotheses of `distance_magnitude_and_sign` hold for the bird of the example on a
1280 x 720 screen, which is before the pipe reference point. -/
theorem distance_magnitude_and_sign_witness :
    0 < (⟨1280, 720⟩ : Vector2u).x ∧ 0 < (⟨1280, 720⟩ : Vector2u).y ∧
    ∃ h v y : ℚ,
      Effect.performOnPredictedOutput 0 [h, v, y] ∈
        (updateANNBody (exampleDeps Rat.sqrt) ⟨1280, 720⟩ () 0 goneBird ⟨0, []⟩).2.2 ∧
      |h| = min (max (|(goneBird : Bird ℚ).position.x
          - ((exampleDeps Rat.sqrt).nearestPipeFront () (goneBird : Bird ℚ).position).x|
            / ((⟨1280, 720⟩ : Vector2u).x : ℚ)) 0) 1 :=
  ⟨by decide, by decide,
    let ⟨h, v, y, hmem, hh, _⟩ :=
      distance_magnitude_and_sign (exampleDeps Rat.sqrt) ⟨1280, 720⟩ () 0 goneBird ⟨0, []⟩
        (by decide) (by decide)
    ⟨h, v, y, hmem, hh.1⟩⟩

/-- C4: in the loop body of `updateANN`, whatever output buffer the network produces, `flap()`
is called on the bird if and only if `output[0] > 0.5`; at `output[0] = 0.5` exactly the bird
is left as it is and no `flap()` is recorded. -/
theorem flap_iff_output_gt_half (deps : Deps α P) (mScreenSize : Vector2u) (pipes : P)
    (iterator : Nat) (currentBird : Bird α) (currentGenome : Genome α) :
    (Effect.flap iterator ∈
        (updateANNBody deps mScreenSize pipes iterator currentBird currentGenome).2.2 ↔
      networkOutput deps mScreenSize pipes currentBird currentGenome 0 > 1 / 2) ∧
    (updateANNBody deps mScreenSize pipes iterator currentBird currentGenome).1 =
      (if networkOutput deps mScreenSize pipes currentBird currentGenome 0 > 1 / 2
        then deps.flap currentBird else currentBird) ∧
    (networkOutput deps mScreenSize pipes currentBird currentGenome 0 = 1 / 2 →
      (updateANNBody deps mScreenSize pipes iterator currentBird currentGenome).1 =
        currentBird ∧
      ∀ k, Effect.flap k ∉
        (updateANNBody deps mScreenSize pipes iterator currentBird currentGenome).2.2) ∧
    (∀ (flap : Bird α → Bird α) (output : Nat → α),
      (Effect.flap iterator ∈ (onPredictedOutput flap iterator currentBird output).2 ↔
        output 0 > 1 / 2) ∧
      (output 0 = 1 / 2 →
        onPredictedOutput flap iterator currentBird output = (currentBird, []))) := by
  refine ⟨?_, ?_, ?_, ?_⟩
  · rw [updateANNBody_effects]
    unfold onPredictedOutput
    split_ifs with hgt
    · simpa using hgt
    · simpa using hgt
  · rw [updateANNBody_bird]
    unfold onPredictedOutput
    split_ifs <;> rfl
  · intro heq
    have hgt : ¬ networkOutput deps mScreenSize pipes currentBird currentGenome 0 > 1 / 2 := by
      rw [heq]
      exact lt_irrefl _
    constructor
    · rw [updateANNBody_bird]
      unfold onPredictedOutput
      rw [if_neg hgt]
    · intro k
      rw [updateANNBody_effects]
      unfold onPredictedOutput
      rw [if_neg hgt]
      simp
  · intro flap output
    constructor
    · unfold onPredictedOutput
      split_ifs with hgt
      · simpa using hgt
      · simpa using hgt
    · intro heq
      unfold onPredictedOutput
      rw [if_neg]
      rw [heq]
      exact lt_irrefl _

end Numeric

/-! ## The loop of `updateANN` -/

section ANNLoop

variable {α P : Type} [LinearOrderedField α]

theorem gaAtIndices_body_append (deps : Deps α P) (mScreenSize : Vector2u) (pipes : P)
    (iterator : Nat) (currentBird : Bird α) (currentGenome : Genome α)
    (effects : List (Effect α)) :
    gaAtIndices
      ((updateANNBody deps mScreenSize pipes iterator currentBird currentGenome).2.2 ++ effects)
      = iterator :: gaAtIndices effects := by
  rw [updateANNBody_effects]
  unfold onPredictedOutput
  split_ifs <;> simp [gaAtIndices]

theorem isANN_of_mem_body (deps : Deps α P) (mScreenSize : Vector2u) (pipes : P)
    (iterator : Nat) (currentBird : Bird α) (currentGenome : Genome α) (e : Effect α)
    (he : e ∈ (updateANNBody deps mScreenSize pipes iterator currentBird currentGenome).2.2) :
    e.isANN = true := by
  rw [updateANNBody_effects] at he
  unfold onPredictedOutput at he
  split_ifs at he
  · simp only [List.cons_append, List.nil_append, List.mem_cons, List.mem_singleton,
      List.not_mem_nil, or_false] at he
    rcases he with h | h | h | h <;> (subst h; rfl)
  · simp only [List.append_nil, List.mem_cons, List.mem_singleton, List.not_mem_nil,
      or_false] at he
    rcases he with h | h | h <;> (subst h; rfl)

/-- The loop succeeds when the population is long enough; it leaves the genomes outside
`[iterator, iterator + birds.length)` alone, stores at `iterator + k` the genome the body
returns for the bird at position `k`, and calls `at()` on `iterator, iterator + 1, ...`. -/
theorem updateANNLoop_spec (deps : Deps α P) (mScreenSize : Vector2u) (pipes : P) :
    ∀ (birds : List (Bird α)) (iterator : Nat) (population : List (Genome α)),
      iterator + birds.length ≤ population.length →
      ∃ birds1 population1 effects,
        updateANNLoop deps mScreenSize pipes iterator birds population
          = some (birds1, population1, effects) ∧
        birds1.length = birds.length ∧
        population1.length = population.length ∧
        (∀ j, j < iterator → population1[j]? = population[j]?) ∧
        (∀ j, iterator + birds.length ≤ j → population1[j]? = population[j]?) ∧
        (∀ k bird, birds[k]? = some bird → ∃ g, population[iterator + k]? = some g ∧
          population1[iterator + k]? =
            some (updateANNBody deps mScreenSize pipes (iterator + k) bird g).2.1 ∧
          birds1[k]? = some (updateANNBody deps mScreenSize pipes (iterator + k) bird g).1 ∧
          ∀ e ∈ (updateANNBody deps mScreenSize pipes (iterator + k) bird g).2.2,
            e ∈ effects) ∧
        gaAtIndices effects = List.range' iterator birds.length ∧
        (∀ e ∈ effects, e.isANN = true) := by
  intro birds
  induction birds with
  | nil =>
    intro iterator population _
    refine ⟨[], population, [], rfl, rfl, rfl, fun _ _ => rfl, fun _ _ => rfl, ?_, rfl, ?_⟩
    · intro k bird hk
      simp at hk
    · intro e he
      simp at he
  | cons b rest ih =>
    intro iterator population hlen
    have hi : iterator < population.length := by
      simp only [List.length_cons] at hlen
      omega
    obtain ⟨birds1, population1, effects, hrun, hb, hp, hlo, hhi, hmid, hidx, hann⟩ :=
      ih (iterator + 1)
        (population.set iterator
          (updateANNBody deps mScreenSize pipes iterator b population[iterator]).2.1)
        (by simp only [List.length_cons] at hlen; simp only [List.length_set]; omega)
    refine ⟨(updateANNBody deps mScreenSize pipes iterator b population[iterator]).1 :: birds1,
      population1,
      (updateANNBody deps mScreenSize pipes iterator b population[iterator]).2.2 ++ effects,
      ?_, ?_, ?_, ?_, ?_, ?_, ?_, ?_⟩
    · have hget : populationAt population iterator = some population[iterator] := by
        simp [populationAt, List.getElem?_eq_getElem hi]
      simp only [updateANNLoop, hget, hrun]
    · simp [hb]
    · rw [hp, List.length_set]
    · intro j hj
      rw [hlo j (by omega), List.getElem?_set_ne (by omega)]
    · intro j hj
      simp only [List.length_cons] at hj
      rw [hhi j (by omega), List.getElem?_set_ne (by omega)]
    · intro k bird hk
      cases k with
      | zero =>
        simp only [List.getElem?_cons_zero, Option.some.injEq] at hk
        subst hk
        refine ⟨population[iterator], by simp [List.getElem?_eq_getElem hi], ?_, by simp, ?_⟩
        · rw [Nat.add_zero, hlo iterator (by omega), List.getElem?_set_self hi]
        · intro e he
          exact List.mem_append_left _ he
      | succ k =>
        simp only [List.getElem?_cons_succ] at hk
        obtain ⟨g, hg, hg1, hb1, heff⟩ := hmid k bird hk
        have hidx2 : iterator + 1 + k = iterator + (k + 1) := by omega
        rw [hidx2] at hg hg1 hb1 heff
        rw [List.getElem?_set_ne (by omega)] at hg
        refine ⟨g, hg, hg1, by simpa using hb1, ?_⟩
        intro e he
        exact List.mem_append_right _ (heff e he)
    · rw [gaAtIndices_body_append, hidx]
      rfl
    · intro e he
      rcases List.mem_append.mp he with h | h
      · exact isANN_of_mem_body deps mScreenSize pipes iterator b _ e h
      · exact hann e h

/-- The function `updateANN` succeeds when there are at least as many genomes as birds; it
touches only the birds and the population, stores at index `k` the genome the body returns for
the bird at position `k`, and calls `at()` on `0, 1, ...` in this order. -/
theorem updateANN_spec (deps : Deps α P) (s : GameManager α P)
    (hlen : s.mBirds.length ≤ s.mGeneticAlgorithm.population.length) :
    ∃ s1 effects,
      updateANN deps s = some (s1, effects) ∧
      s1.mBirds.length = s.mBirds.length ∧
      s1.mGeneticAlgorithm.population.length = s.mGeneticAlgorithm.population.length ∧
      s1.mGeneticAlgorithm.populationSize = s.mGeneticAlgorithm.populationSize ∧
      s1.mPipesGenerator = s.mPipesGenerator ∧
      s1.mScreenSize = s.mScreenSize ∧
      s1.mBirdTextures = s.mBirdTextures ∧
      (∀ k bird, s.mBirds[k]? = some bird →
        ∃ g, s.mGeneticAlgorithm.population[k]? = some g ∧
          s1.mGeneticAlgorithm.population[k]? =
            some (updateANNBody deps s.mScreenSize s.mPipesGenerator k bird g).2.1 ∧
          s1.mBirds[k]? = some (updateANNBody deps s.mScreenSize s.mPipesGenerator k bird g).1 ∧
          ∀ e ∈ (updateANNBody deps s.mScreenSize s.mPipesGenerator k bird g).2.2,
            e ∈ effects) ∧
      gaAtIndices effects = List.range s.mBirds.length ∧
      (∀ e ∈ effects, e.isANN = true) := by
  obtain ⟨birds1, population1, effects, hrun, hb, hp, _, _, hmid, hidx, hann⟩ :=
    updateANNLoop_spec deps s.mScreenSize s.mPipesGenerator s.mBirds 0
      s.mGeneticAlgorithm.population (by omega)
  refine ⟨{ s with mBirds := birds1,
                   mGeneticAlgorithm := { s.mGeneticAlgorithm with population := population1 } },
    effects, ?_, hb, hp, rfl, rfl, rfl, rfl, ?_, ?_, hann⟩
  · simp only [updateANN, hrun]
  · intro k bird hk
    obtain ⟨g, hg, hg1, hb1, heff⟩ := hmid k bird hk
    rw [Nat.zero_add] at hg hg1 hb1 heff
    exact ⟨g, hg, hg1, hb1, heff⟩
  · rw [hidx, List.range_eq_range']

end ANNLoop

/-! ## One tick of `GameManager::update` -/

section Tick

variable {α P : Type} [LinearOrderedField α]

omit [LinearOrderedField α] in
theorem handleCollisionLoop_length (deps : Deps α P) :
    ∀ (birds : List (Bird α)) (pipes : P),
      (handleCollisionLoop deps pipes birds).2.length = birds.length := by
  intro birds
  induction birds with
  | nil => intro pipes; rfl
  | cons b rest ih =>
    intro pipes
    simp only [handleCollisionLoop, List.length_cons, ih]

theorem updateUntilANN_birds_length (deps : Deps α P) (deltaTime : Int) (s : GameManager α P) :
    (updateUntilANN deps deltaTime s).mBirds.length = s.mBirds.length := by
  simp [updateUntilANN, updateBirds]

theorem updateUntilANN_ga (deps : Deps α P) (deltaTime : Int) (s : GameManager α P) :
    (updateUntilANN deps deltaTime s).mGeneticAlgorithm = s.mGeneticAlgorithm :=
  rfl

theorem restartGame_birds_length (deps : Deps α P) (s : GameManager α P) :
    (restartGame deps s).1.mBirds.length = 150 := by
  simp [restartGame, addBirds]

theorem restartGame_ga (deps : Deps α P) (s : GameManager α P) :
    (restartGame deps s).1.mGeneticAlgorithm = s.mGeneticAlgorithm :=
  rfl

theorem restartGame_effects (deps : Deps α P) (s : GameManager α P) :
    (restartGame deps s).2 = [Effect.clearBirds, Effect.pipesRestart, Effect.addBirds 150] :=
  rfl

/-- The first part of `update` returns when there are at least as many genomes as birds, keeps
the number of birds and of genomes, and makes only the calls of `updateANN`. -/
theorem updateUntilCheck_spec (deps : Deps α P) (deltaTime : Int) (s : GameManager α P)
    (hlen : s.mBirds.length ≤ s.mGeneticAlgorithm.population.length) :
    ∃ mid effects,
      updateUntilCheck deps deltaTime s = some (mid, effects) ∧
      mid.mBirds.length = s.mBirds.length ∧
      mid.mGeneticAlgorithm.population.length = s.mGeneticAlgorithm.population.length ∧
      mid.mGeneticAlgorithm.populationSize = s.mGeneticAlgorithm.populationSize ∧
      (∀ e ∈ effects, e.isANN = true) := by
  have hlen1 : (updateUntilANN deps deltaTime s).mBirds.length ≤
      (updateUntilANN deps deltaTime s).mGeneticAlgorithm.population.length := by
    rw [updateUntilANN_birds_length, updateUntilANN_ga]
    exact hlen
  obtain ⟨s1, effects, hrun, hb, hp, hsize, _, _, _, _, _, hann⟩ :=
    updateANN_spec deps (updateUntilANN deps deltaTime s) hlen1
  refine ⟨handleCollision deps s1, effects, ?_, ?_, ?_, ?_, hann⟩
  · simp only [updateUntilCheck, hrun]
  · simp only [handleCollision, handleCollisionLoop_length, hb, updateUntilANN_birds_length]
  · simp only [handleCollision, hp, updateUntilANN_ga]
  · simp only [handleCollision, hsize, updateUntilANN_ga]

theorem update_eq_of_check (deps : Deps α P) (deltaTime : Int) (s mid : GameManager α P)
    (effects : List (Effect α))
    (h : updateUntilCheck deps deltaTime s = some (mid, effects)) :
    update deps deltaTime s =
      some ((updateEndOfGeneration deps mid).1, effects ++ (updateEndOfGeneration deps mid).2) := by
  simp only [update, h]

theorem allBirdsDead_iff (s : GameManager α P) :
    allBirdsDead s = true ↔ ∀ bird ∈ s.mBirds, bird.dead = true ∧ bird.position.x < 0 := by
  simp [allBirdsDead]

theorem updateEndOfGeneration_of_dead (deps : Deps α P) (mid : GameManager α P)
    (h : allBirdsDead mid = true) :
    updateEndOfGeneration deps mid =
      ({ (restartGame deps mid).1 with
          mGeneticAlgorithm := deps.evolve mid.mGeneticAlgorithm },
        [Effect.clearBirds, Effect.pipesRestart, Effect.addBirds 150, Effect.evolve]) := by
  simp only [updateEndOfGeneration, h, if_true, restartGame_effects, restartGame_ga]
  rfl

theorem updateEndOfGeneration_of_not_dead (deps : Deps α P) (mid : GameManager α P)
    (h : ¬ allBirdsDead mid = true) :
    updateEndOfGeneration deps mid = (mid, []) := by
  simp only [updateEndOfGeneration, h, if_false]
  rfl

omit [LinearOrderedField α] in
theorem not_mem_of_isANN {effects : List (Effect α)} (hann : ∀ e ∈ effects, e.isANN = true)
    (x : Effect α) (hx : x.isANN = false) : x ∉ effects := by
  intro hmem
  rw [hann x hmem] at hx
  exact Bool.noConfusion hx

/-- The number of birds and of genomes is 150 in every state the driver goes through, as long
as the genetic algorithm keeps the size of its population. -/
theorem reachable_sizes (deps : Deps α P) (hdeps : deps.KeepsPopulationSize)
    (s : GameManager α P) (hs : Reachable deps s) :
    s.mBirds.length = 150 ∧ s.mGeneticAlgorithm.population.length = 150 ∧
      s.mGeneticAlgorithm.populationSize = 150 := by
  induction hs with
  | construct screenSize birdTextures =>
    refine ⟨?_, ?_, ?_⟩
    · simp only [GameManager.construct, restartGame_birds_length]
    · simp only [GameManager.construct, restartGame_ga, hdeps.createPopulation_length]
    · simp only [GameManager.construct, restartGame_ga, hdeps.createPopulation_size]
  | update deltaTime s s1 effects _ hrun ih =>
    obtain ⟨hb, hp, hsize⟩ := ih
    obtain ⟨mid, effects1, hcheck, hb1, hp1, hsize1, _⟩ :=
      updateUntilCheck_spec deps deltaTime s (by omega)
    rw [update_eq_of_check deps deltaTime s mid effects1 hcheck] at hrun
    simp only [Option.some.injEq, Prod.mk.injEq] at hrun
    obtain ⟨hs1, _⟩ := hrun
    subst hs1
    by_cases hdead : allBirdsDead mid = true
    · rw [updateEndOfGeneration_of_dead deps mid hdead]
      refine ⟨restartGame_birds_length deps mid, ?_, ?_⟩
      · show (deps.evolve mid.mGeneticAlgorithm).population.length = 150
        rw [hdeps.evolve_length, hp1, hp]
      · show (deps.evolve mid.mGeneticAlgorithm).populationSize = 150
        rw [hdeps.evolve_size, hsize1, hsize]
    · rw [updateEndOfGeneration_of_not_dead deps mid hdead]
      exact ⟨by rw [hb1, hb], by rw [hp1, hp], by rw [hsize1, hsize]⟩
  | handleEvents event s _ ih =>
    obtain ⟨hb, hp, hsize⟩ := ih
    refine ⟨?_, hp, hsize⟩
    simp only [handleEvents, List.length_map, hb]
  | restartGame s _ ih =>
    obtain ⟨_, hp, hsize⟩ := ih
    exact ⟨restartGame_birds_length deps s, by rw [restartGame_ga]; exact hp,
      by rw [restartGame_ga]; exact hsize⟩

theorem exampleDeps_keepsPopulationSize (sqrtf : α → α) :
    (exampleDeps sqrtf).KeepsPopulationSize where
  createPopulation_length := by intro ga; simp [exampleDeps]
  createPopulation_size := by intro ga; rfl
  evolve_length := by intro ga; simp [exampleDeps]
  evolve_size := by intro ga; rfl

/-- C6: in every state the driver reaches after its construction, by ticks, events and calls
of `restartGame`, the call of `updateANN` that `update` makes finds exactly 150 birds and a
population of 150 genomes, the size the genetic algorithm was constructed with; it returns, the
indices it passes to `at()` are `0, 1, ..., 149`, each below 150 and none twice, and the bird
at list position `k` is evaluated with genome `k` and leaves its fitness in genome `k`. -/
theorem birds_paired_with_genomes (deps : Deps α P) (hdeps : deps.KeepsPopulationSize)
    (s : GameManager α P) (hs : Reachable deps s) (deltaTime : Int) :
    (updateUntilANN deps deltaTime s).mBirds.length = 150 ∧
    (updateUntilANN deps deltaTime s).mGeneticAlgorithm.population.length = 150 ∧
    (updateUntilANN deps deltaTime s).mGeneticAlgorithm.populationSize = 150 ∧
    ∃ s1 effects,
      updateANN deps (updateUntilANN deps deltaTime s) = some (s1, effects) ∧
      gaAtIndices effects = List.range 150 ∧
      (∀ i ∈ gaAtIndices effects, i < 150) ∧
      (gaAtIndices effects).Nodup ∧
      (∀ i, i < 150 → (gaAtIndices effects).count i = 1) ∧
      s1.mBirds.length = 150 ∧
      s1.mGeneticAlgorithm.population.length = 150 ∧
      ∀ k bird, (updateUntilANN deps deltaTime s).mBirds[k]? = some bird →
        ∃ g, (updateUntilANN deps deltaTime s).mGeneticAlgorithm.population[k]? = some g ∧
          Effect.gaAt k ∈ effects ∧
          Effect.setFitness k (fitnessValue deps.sqrtf bird.birdScore
            (birdPerception deps s.mScreenSize
              (updateUntilANN deps deltaTime s).mPipesGenerator bird)) ∈ effects ∧
          Effect.performOnPredictedOutput k
            (networkInput (birdPerception deps s.mScreenSize
              (updateUntilANN deps deltaTime s).mPipesGenerator bird)
              (birdPositionYRead deps s.mScreenSize bird)) ∈ effects ∧
          s1.mGeneticAlgorithm.population[k]? =
            some { g with
              fitness := fitnessValue deps.sqrtf bird.birdScore
                (birdPerception deps s.mScreenSize
                  (updateUntilANN deps deltaTime s).mPipesGenerator bird) } := by
  obtain ⟨hb, hp, hsize⟩ := reachable_sizes deps hdeps s hs
  have hb0 : (updateUntilANN deps deltaTime s).mBirds.length = 150 := by
    rw [updateUntilANN_birds_length, hb]
  have hp0 : (updateUntilANN deps deltaTime s).mGeneticAlgorithm.population.length = 150 := by
    rw [updateUntilANN_ga, hp]
  refine ⟨hb0, hp0, by rw [updateUntilANN_ga, hsize], ?_⟩
  obtain ⟨s1, effects, hrun, hb1, hp1, _, _, _, _, hmid, hidx, _⟩ :=
    updateANN_spec deps (updateUntilANN deps deltaTime s) (by omega)
  rw [hb0] at hidx hb1
  rw [hp0] at hp1
  refine ⟨s1, effects, hrun, hidx, ?_, ?_, ?_, hb1, hp1, ?_⟩
  · intro i hi
    rw [hidx] at hi
    exact List.mem_range.mp hi
  · rw [hidx]
    exact List.nodup_range 150
  · intro i hi
    rw [hidx]
    exact List.count_eq_one_of_mem (List.nodup_range 150) (List.mem_range.mpr hi)
  · intro k bird hk
    obtain ⟨g, hg, hg1, _, heff⟩ := hmid k bird hk
    have hscreen : (updateUntilANN deps deltaTime s).mScreenSize = s.mScreenSize := rfl
    rw [hscreen] at hg1 heff
    refine ⟨g, hg, ?_, ?_, ?_, ?_⟩
    · apply heff
      rw [updateANNBody_effects]
      simp
    · apply heff
      rw [updateANNBody_effects]
      simp
    · apply heff
      rw [updateANNBody_effects]
      simp
    · rw [hg1, updateANNBody_genome]

/-- The hypotheses of `birds_paired_with_genomes` hold for the example collaborators and the
state right after construction on a 1280 x 720 screen. -/
theorem birds_paired_with_genomes_witness :
    (exampleDeps Rat.sqrt).KeepsPopulationSize ∧
    Reachable (exampleDeps Rat.sqrt)
      (GameManager.construct (exampleDeps Rat.sqrt) ⟨1280, 720⟩ [0, 1, 2]) ∧
    ∃ s1 effects,
      updateANN (exampleDeps Rat.sqrt)
        (updateUntilANN (exampleDeps Rat.sqrt) 16666
          (GameManager.construct (exampleDeps Rat.sqrt) ⟨1280, 720⟩ [0, 1, 2]))
        = some (s1, effects) ∧
      gaAtIndices effects = List.range 150 :=
  ⟨exampleDeps_keepsPopulationSize Rat.sqrt, Reachable.construct ⟨1280, 720⟩ [0, 1, 2],
    let ⟨s1, effects, hrun, hidx, _⟩ :=
      (birds_paired_with_genomes (exampleDeps Rat.sqrt)
        (exampleDeps_keepsPopulationSize Rat.sqrt) _
        (Reachable.construct ⟨1280, 720⟩ [0, 1, 2]) 16666).2.2.2
    ⟨s1, effects, hrun, hidx⟩⟩

theorem exampleEndOfGeneration_lengths :
    (exampleEndOfGeneration : GameManager α Unit).mBirds.length ≤
      (exampleEndOfGeneration : GameManager α Unit).mGeneticAlgorithm.population.length := by
  simp [exampleEndOfGeneration]

theorem example_check_isSome :
    (updateUntilCheck (exampleDeps Rat.sqrt) 16666
      (exampleEndOfGeneration : GameManager ℚ Unit)).isSome = true := by
  decide!

theorem example_update_isSome :
    (update (exampleDeps Rat.sqrt) 16666
      (exampleEndOfGeneration : GameManager ℚ Unit)).isSome = true := by
  decide!

theorem example_mid_allBirdsDead :
    allBirdsDead ((updateUntilCheck (exampleDeps Rat.sqrt) 16666
      (exampleEndOfGeneration : GameManager ℚ Unit)).get example_check_isSome).1 = true := by
  decide!

theorem example_mid_eq (mid : GameManager ℚ Unit) (effects1 : List (Effect ℚ))
    (hcheck : updateUntilCheck (exampleDeps Rat.sqrt) 16666
      (exampleEndOfGeneration : GameManager ℚ Unit) = some (mid, effects1)) :
    allBirdsDead mid = true := by
  have hmid : ((updateUntilCheck (exampleDeps Rat.sqrt) 16666
      (exampleEndOfGeneration : GameManager ℚ Unit)).get example_check_isSome).1 = mid := by
    simp only [hcheck, Option.get_some]
  rw [← hmid]
  exact example_mid_allBirdsDead

/-- C5: when there are at least as many genomes as birds, one call of `update` returns; with
`mid` the state after `updateBirds`, `updateANN` and `handleCollision`, the call of `evolve`
and each call of the reset are made if and only if every bird of `mid` is dead and at
`x < 0`; if some bird is alive or at `x >= 0`, nothing is called after `updateANN` and the
state `mid`, with its birds and its population, is the result. -/
theorem evolve_iff_all_birds_gone (deps : Deps α P) (deltaTime : Int) (s : GameManager α P)
    (hlen : s.mBirds.length ≤ s.mGeneticAlgorithm.population.length) :
    ∃ mid effects1 s1 effects2,
      updateUntilCheck deps deltaTime s = some (mid, effects1) ∧
      update deps deltaTime s = some (s1, effects1 ++ effects2) ∧
      (allBirdsDead mid = true ↔
        ∀ bird ∈ mid.mBirds, bird.dead = true ∧ bird.position.x < 0) ∧
      (Effect.evolve ∈ effects1 ++ effects2 ↔ allBirdsDead mid = true) ∧
      (Effect.clearBirds ∈ effects1 ++ effects2 ↔ allBirdsDead mid = true) ∧
      (Effect.pipesRestart ∈ effects1 ++ effects2 ↔ allBirdsDead mid = true) ∧
      (Effect.addBirds 150 ∈ effects1 ++ effects2 ↔ allBirdsDead mid = true) ∧
      (allBirdsDead mid = true →
        s1 = { (restartGame deps mid).1 with
          mGeneticAlgorithm := deps.evolve mid.mGeneticAlgorithm }) ∧
      ((∃ bird ∈ mid.mBirds, bird.dead = false ∨ 0 ≤ bird.position.x) →
        effects2 = [] ∧ s1 = mid) := by
  obtain ⟨mid, effects1, hcheck, _, _, _, hann⟩ := updateUntilCheck_spec deps deltaTime s hlen
  have hev : Effect.evolve ∉ effects1 := not_mem_of_isANN hann _ rfl
  have hcl : Effect.clearBirds ∉ effects1 := not_mem_of_isANN hann _ rfl
  have hpr : Effect.pipesRestart ∉ effects1 := not_mem_of_isANN hann _ rfl
  have hab : Effect.addBirds 150 ∉ effects1 := not_mem_of_isANN hann _ rfl
  refine ⟨mid, effects1, (updateEndOfGeneration deps mid).1, (updateEndOfGeneration deps mid).2,
    hcheck, update_eq_of_check deps deltaTime s mid effects1 hcheck, allBirdsDead_iff mid, ?_⟩
  by_cases hdead : allBirdsDead mid = true
  · rw [updateEndOfGeneration_of_dead deps mid hdead]
    refine ⟨?_, ?_, ?_, ?_, fun _ => rfl, ?_⟩
    · simp [hdead]
    · simp [hdead]
    · simp [hdead]
    · simp [hdead]
    · rintro ⟨bird, hmem, hbird⟩
      obtain ⟨hd, hxneg⟩ := (allBirdsDead_iff mid).mp hdead bird hmem
      rcases hbird with h | h
      · rw [hd] at h
        exact Bool.noConfusion h
      · exact absurd hxneg (not_lt.mpr h)
  · rw [updateEndOfGeneration_of_not_dead deps mid hdead]
    refine ⟨?_, ?_, ?_, ?_, fun h => absurd h hdead, fun _ => ⟨rfl, rfl⟩⟩
    · simp [hdead, hev]
    · simp [hdead, hcl]
    · simp [hdead, hpr]
    · simp [hdead, hab]

/-- The hypothesis of `evolve_iff_all_birds_gone` holds in the example state, where the tick
calls the reset and `evolve`. -/
theorem evolve_iff_all_birds_gone_witness :
    (exampleEndOfGeneration : GameManager ℚ Unit).mBirds.length ≤
      (exampleEndOfGeneration : GameManager ℚ Unit).mGeneticAlgorithm.population.length ∧
    ∃ s1 effects,
      update (exampleDeps Rat.sqrt) 16666 (exampleEndOfGeneration : GameManager ℚ Unit)
        = some (s1, effects) ∧
      Effect.evolve ∈ effects ∧ Effect.clearBirds ∈ effects := by
  refine ⟨exampleEndOfGeneration_lengths, ?_⟩
  obtain ⟨mid, effects1, s1, effects2, hcheck, hrun, _, hev, hcl, _⟩ :=
    evolve_iff_all_birds_gone (exampleDeps Rat.sqrt) 16666
      (exampleEndOfGeneration : GameManager ℚ Unit) exampleEndOfGeneration_lengths
  have hdead := example_mid_eq mid effects1 hcheck
  exact ⟨s1, effects1 ++ effects2, hrun, hev.mpr hdead, hcl.mpr hdead⟩

/-- C8, as the code has it: when there are at least as many genomes as birds and every bird is
dead and at `x < 0` once `updateBirds`, `updateANN` and `handleCollision` are done, `update`
ends with the calls `clear`, `restart` of the pipes, `addBirds(150)` and `evolve`, in this
order: the reset comes first, `evolve` is the last call of the tick and works on the
population the reset has left untouched. -/
theorem reset_precedes_evolve (deps : Deps α P) (deltaTime : Int) (s : GameManager α P)
    (hlen : s.mBirds.length ≤ s.mGeneticAlgorithm.population.length) :
    ∃ mid effects1 s1,
      updateUntilCheck deps deltaTime s = some (mid, effects1) ∧
      (allBirdsDead mid = true →
        update deps deltaTime s = some (s1, effects1 ++
          [Effect.clearBirds, Effect.pipesRestart, Effect.addBirds 150, Effect.evolve]) ∧
        resetPrecedesEvolve (effects1 ++
          [Effect.clearBirds, Effect.pipesRestart, Effect.addBirds 150, Effect.evolve]) ∧
        ¬ evolvePrecedesReset (effects1 ++
          [Effect.clearBirds, Effect.pipesRestart, Effect.addBirds 150, Effect.evolve]) ∧
        s1.mBirds.length = 150 ∧
        s1.mGeneticAlgorithm = deps.evolve mid.mGeneticAlgorithm) := by
  obtain ⟨mid, effects1, hcheck, _, _, _, hann⟩ := updateUntilCheck_spec deps deltaTime s hlen
  have hev : Effect.evolve ∉ effects1 := not_mem_of_isANN hann _ rfl
  have hcl : Effect.clearBirds ∉ effects1 := not_mem_of_isANN hann _ rfl
  have hpr : Effect.pipesRestart ∉ effects1 := not_mem_of_isANN hann _ rfl
  have hab : Effect.addBirds 150 ∉ effects1 := not_mem_of_isANN hann _ rfl
  refine ⟨mid, effects1, (updateEndOfGeneration deps mid).1, hcheck, ?_⟩
  intro hdead
  have hrun := update_eq_of_check deps deltaTime s mid effects1 hcheck
  rw [updateEndOfGeneration_of_dead deps mid hdead] at hrun ⊢
  refine ⟨hrun, ?_, ?_, restartGame_birds_length deps mid, rfl⟩
  · unfold resetPrecedesEvolve callsBefore
    rw [List.indexOf_append_of_not_mem hev, List.indexOf_append_of_not_mem hcl,
      List.indexOf_append_of_not_mem hpr, List.indexOf_append_of_not_mem hab]
    simp [List.indexOf_cons]
  · unfold evolvePrecedesReset callsBefore
    rw [List.indexOf_append_of_not_mem hev, List.indexOf_append_of_not_mem hcl]
    simp [List.indexOf_cons]

/-- The hypothesis of `reset_precedes_evolve` holds in the example state, where the tick ends
with the reset followed by `evolve` and leaves 150 new birds. -/
theorem reset_precedes_evolve_witness :
    (exampleEndOfGeneration : GameManager ℚ Unit).mBirds.length ≤
      (exampleEndOfGeneration : GameManager ℚ Unit).mGeneticAlgorithm.population.length ∧
    ∃ s1 effects,
      update (exampleDeps Rat.sqrt) 16666 (exampleEndOfGeneration : GameManager ℚ Unit)
        = some (s1, effects) ∧
      resetPrecedesEvolve effects ∧ s1.mBirds.length = 150 := by
  refine ⟨exampleEndOfGeneration_lengths, ?_⟩
  obtain ⟨mid, effects1, s1, hcheck, himp⟩ :=
    reset_precedes_evolve (exampleDeps Rat.sqrt) 16666
      (exampleEndOfGeneration : GameManager ℚ Unit) exampleEndOfGeneration_lengths
  obtain ⟨hrun, hord, _, hbirds, _⟩ := himp (example_mid_eq mid effects1 hcheck)
  exact ⟨s1, _, hrun, hord, hbirds⟩

/-- C8 as claimed fails: in the example state, 150 dead birds at `x = -1` on a 1280 x 720
screen, the tick of 16666 microseconds finds all birds dead and out of the screen, calls
`evolve`, and `evolve` does not come before the calls of the reset. -/
theorem evolve_precedes_reset_fails :
    ∃ mid effects1 s1 effects,
      updateUntilCheck (exampleDeps Rat.sqrt) 16666
        (exampleEndOfGeneration : GameManager ℚ Unit) = some (mid, effects1) ∧
      allBirdsDead mid = true ∧
      update (exampleDeps Rat.sqrt) 16666
        (exampleEndOfGeneration : GameManager ℚ Unit) = some (s1, effects) ∧
      effects.drop 450
        = [Effect.clearBirds, Effect.pipesRestart, Effect.addBirds 150, Effect.evolve] ∧
      Effect.evolve ∈ effects ∧
      ¬ evolvePrecedesReset effects := by
  refine ⟨((updateUntilCheck (exampleDeps Rat.sqrt) 16666
      (exampleEndOfGeneration : GameManager ℚ Unit)).get example_check_isSome).1,
    ((updateUntilCheck (exampleDeps Rat.sqrt) 16666
      (exampleEndOfGeneration : GameManager ℚ Unit)).get example_check_isSome).2,
    ((update (exampleDeps Rat.sqrt) 16666
      (exampleEndOfGeneration : GameManager ℚ Unit)).get example_update_isSome).1,
    ((update (exampleDeps Rat.sqrt) 16666
      (exampleEndOfGeneration : GameManager ℚ Unit)).get example_update_isSome).2,
    ?_, ?_, ?_, ?_, ?_, ?_⟩
  · simp
  · exact example_mid_allBirdsDead
  · simp
  · decide!
  · decide!
  · decide!

end Tick

/-! ## The fitness over the reals -/

section Fitness

variable {P : Type}

theorem sqrt_example : Real.sqrt ((3 / 10 : ℝ) ^ 2 + (4 / 10 : ℝ) ^ 2) = 1 / 2 := by
  rw [show ((3 / 10 : ℝ) ^ 2 + (4 / 10 : ℝ) ^ 2) = (1 / 2) ^ 2 by norm_num]
  exact Real.sqrt_sq (by norm_num)

/-- C1: when there are at least as many genomes as birds, `updateANN` returns, and for every
bird, at list position `k`, it hands the distances `h` and `v` of the perception of that bird
to the network of genome `k` and writes `birdScore - sqrt(h^2 + v^2) / 10` to genome `k`, which
holds that fitness when the call returns. For `birdScore = 10`, `h = 0.3` and `v = 0.4` the
penalty is `0.05` and the fitness is `9.95`. -/
theorem fitness_written (deps : Deps ℝ P) (hsqrt : deps.sqrtf = Real.sqrt)
    (s : GameManager ℝ P)
    (hlen : s.mBirds.length ≤ s.mGeneticAlgorithm.population.length) :
    (∃ s1 effects,
      updateANN deps s = some (s1, effects) ∧
      ∀ k bird, s.mBirds[k]? = some bird →
        ∃ (h v y : ℝ) (g1 : Genome ℝ),
          h = (perceive s.mScreenSize bird.position
            (deps.nearestPipeFront s.mPipesGenerator bird.position)).horizontalDistance ∧
          v = (perceive s.mScreenSize bird.position
            (deps.nearestPipeFront s.mPipesGenerator bird.position)).verticalDistance ∧
          Effect.performOnPredictedOutput k [h, v, y] ∈ effects ∧
          Effect.setFitness k (bird.birdScore - Real.sqrt (h ^ 2 + v ^ 2) / 10) ∈ effects ∧
          s1.mGeneticAlgorithm.population[k]? = some g1 ∧
          g1.fitness = bird.birdScore - Real.sqrt (h ^ 2 + v ^ 2) / 10) ∧
    (penalty Real.sqrt ⟨3 / 10, 4 / 10⟩ = 5 / 100 ∧
      fitnessValue Real.sqrt 10 ⟨3 / 10, 4 / 10⟩ = 995 / 100) := by
  constructor
  · obtain ⟨s1, effects, hrun, _, _, _, _, _, _, hmid, _, _⟩ := updateANN_spec deps s hlen
    refine ⟨s1, effects, hrun, ?_⟩
    intro k bird hk
    obtain ⟨g, _, hg1, _, heff⟩ := hmid k bird hk
    refine ⟨_, _, birdPositionYRead deps s.mScreenSize bird,
      _, rfl, rfl, ?_, ?_, hg1, ?_⟩
    · apply heff
      rw [updateANNBody_effects]
      simp [networkInput, birdPerception]
    · apply heff
      rw [updateANNBody_effects, hsqrt]
      simp [fitnessValue, penalty, birdPerception]
    · rw [updateANNBody_genome, hsqrt]
      simp [fitnessValue, penalty, birdPerception]
  · simp only [fitnessValue, penalty]
    rw [sqrt_example]
    constructor <;> norm_num

/-- The hypotheses of `fitness_written` hold in the example state, where each of the 150
genomes ends with the fitness `9.95` of the scenario. -/
theorem fitness_written_witness :
    (exampleDeps Real.sqrt).sqrtf = Real.sqrt ∧
    (exampleEndOfGeneration : GameManager ℝ Unit).mBirds.length ≤
      (exampleEndOfGeneration : GameManager ℝ Unit).mGeneticAlgorithm.population.length ∧
    ∃ s1 effects,
      updateANN (exampleDeps Real.sqrt) (exampleEndOfGeneration : GameManager ℝ Unit)
        = some (s1, effects) ∧
      ∀ k, k < 150 → ∃ g1 : Genome ℝ,
        s1.mGeneticAlgorithm.population[k]? = some g1 ∧ g1.fitness = 995 / 100 := by
  have hlen : (exampleEndOfGeneration : GameManager ℝ Unit).mBirds.length ≤
      (exampleEndOfGeneration : GameManager ℝ Unit).mGeneticAlgorithm.population.length := by
    simp [exampleEndOfGeneration]
  refine ⟨rfl, hlen, ?_⟩
  obtain ⟨s1, effects, hrun, hall⟩ :=
    (fitness_written (exampleDeps Real.sqrt) rfl exampleEndOfGeneration hlen).1
  refine ⟨s1, effects, hrun, ?_⟩
  intro k hk
  have hbird : (exampleEndOfGeneration : GameManager ℝ Unit).mBirds[k]? = some goneBird := by
    show (List.replicate 150 (goneBird : Bird ℝ))[k]? = some goneBird
    rw [List.getElem?_replicate, if_pos hk]
  obtain ⟨h, v, y, g1, hh, hv, _, _, hg1, hfit⟩ := hall k goneBird hbird
  refine ⟨g1, hg1, ?_⟩
  have hh2 : h = 3 / 10 := by
    rw [hh]
    simp only [perceive, exampleDeps, exampleEndOfGeneration, goneBird, normalize, clamp]
    norm_num
  have hv2 : v = 4 / 10 := by
    rw [hv]
    simp only [perceive, exampleDeps, exampleEndOfGeneration, goneBird, normalize, clamp]
    norm_num
  rw [hfit, hh2, hv2, sqrt_example]
  simp only [goneBird]
  norm_num

theorem penalty_perceive (mScreenSize : Vector2u) (birdPosition pipePosition : Vector2f ℝ) :
    penalty Real.sqrt (perceive mScreenSize birdPosition pipePosition) =
      Real.sqrt
        ((clamp (normalize 0 (mScreenSize.x : ℝ) |birdPosition.x - pipePosition.x|) 0 1) ^ 2 +
          (clamp (normalize 0 (mScreenSize.y : ℝ) |birdPosition.y - pipePosition.y|) 0 1) ^ 2)
        / 10 := by
  unfold penalty
  rw [← sq_abs (perceive mScreenSize birdPosition pipePosition).horizontalDistance,
    ← sq_abs (perceive mScreenSize birdPosition pipePosition).verticalDistance,
    abs_perceive_horizontal, abs_perceive_vertical]

theorem clamp_normalize_mono {S : ℝ} (hS : 0 < S) {d e : ℝ} (h : |d| ≤ |e|) :
    clamp (normalize 0 S |d|) 0 1 ≤ clamp (normalize 0 S |e|) 0 1 := by
  rw [normalize_zero, normalize_zero]
  exact clamp_mono (div_le_div_of_nonneg_right h hS.le)

/-- The penalty grows with the clamped distances on both axes. -/
theorem penalty_mono (mScreenSize : Vector2u) (hx : 0 < mScreenSize.x) (hy : 0 < mScreenSize.y)
    (b1 p1 b2 p2 : Vector2f ℝ) (h1 : |b1.x - p1.x| ≤ |b2.x - p2.x|)
    (h2 : |b1.y - p1.y| ≤ |b2.y - p2.y|) :
    penalty Real.sqrt (perceive mScreenSize b1 p1) ≤
      penalty Real.sqrt (perceive mScreenSize b2 p2) := by
  have hX : (0 : ℝ) < (mScreenSize.x : ℝ) := Nat.cast_pos.mpr hx
  have hY : (0 : ℝ) < (mScreenSize.y : ℝ) := Nat.cast_pos.mpr hy
  rw [penalty_perceive, penalty_perceive]
  apply div_le_div_of_nonneg_right _ (by norm_num : (0 : ℝ) ≤ 10)
  apply Real.sqrt_le_sqrt
  have a1 := clamp_normalize_mono hX h1
  have a2 := clamp_normalize_mono hY h2
  have n1 := clamp_nonneg (normalize 0 (mScreenSize.x : ℝ) |b1.x - p1.x|)
  have n2 := clamp_nonneg (normalize 0 (mScreenSize.y : ℝ) |b1.y - p1.y|)
  nlinarith [a1, a2, n1, n2]

theorem penalty_nonneg (mScreenSize : Vector2u) (b p : Vector2f ℝ) :
    0 ≤ penalty Real.sqrt (perceive mScreenSize b p) := by
  unfold penalty
  exact div_nonneg (Real.sqrt_nonneg _) (by norm_num)

theorem penalty_le (mScreenSize : Vector2u) (b p : Vector2f ℝ) :
    penalty Real.sqrt (perceive mScreenSize b p) ≤ Real.sqrt 2 / 10 := by
  rw [penalty_perceive]
  apply div_le_div_of_nonneg_right _ (by norm_num : (0 : ℝ) ≤ 10)
  apply Real.sqrt_le_sqrt
  have n1 := clamp_nonneg (normalize 0 (mScreenSize.x : ℝ) |b.x - p.x|)
  have n2 := clamp_nonneg (normalize 0 (mScreenSize.y : ℝ) |b.y - p.y|)
  have m1 := clamp_le_one (normalize 0 (mScreenSize.x : ℝ) |b.x - p.x|)
  have m2 := clamp_le_one (normalize 0 (mScreenSize.y : ℝ) |b.y - p.y|)
  nlinarith [n1, n2, m1, m2]

theorem penalty_eq_zero_iff (mScreenSize : Vector2u) (hx : 0 < mScreenSize.x)
    (hy : 0 < mScreenSize.y) (b p : Vector2f ℝ) :
    penalty Real.sqrt (perceive mScreenSize b p) = 0 ↔ b.x = p.x ∧ b.y = p.y := by
  have hX : (0 : ℝ) < (mScreenSize.x : ℝ) := Nat.cast_pos.mpr hx
  have hY : (0 : ℝ) < (mScreenSize.y : ℝ) := Nat.cast_pos.mpr hy
  have n1 := clamp_nonneg (normalize 0 (mScreenSize.x : ℝ) |b.x - p.x|)
  have n2 := clamp_nonneg (normalize 0 (mScreenSize.y : ℝ) |b.y - p.y|)
  rw [penalty_perceive, div_eq_zero_iff, Real.sqrt_eq_zero (by positivity)]
  constructor
  · intro h
    rcases h with h | h
    · have e1 : clamp (normalize 0 (mScreenSize.x : ℝ) |b.x - p.x|) 0 1 = 0 := by nlinarith
      have e2 : clamp (normalize 0 (mScreenSize.y : ℝ) |b.y - p.y|) 0 1 = 0 := by nlinarith
      exact ⟨sub_eq_zero.mp ((clamp_normalize_eq_zero_iff hX _).mp e1),
        sub_eq_zero.mp ((clamp_normalize_eq_zero_iff hY _).mp e2)⟩
    · norm_num at h
  · intro h
    left
    rw [(clamp_normalize_eq_zero_iff hX _).mpr (sub_eq_zero.mpr h.1),
      (clamp_normalize_eq_zero_iff hY _).mpr (sub_eq_zero.mpr h.2)]
    norm_num

theorem updateANNBody_fitness_real (deps : Deps ℝ P) (hsqrt : deps.sqrtf = Real.sqrt)
    (mScreenSize : Vector2u) (pipes : P) (iterator : Nat) (currentBird : Bird ℝ)
    (currentGenome : Genome ℝ) :
    (updateANNBody deps mScreenSize pipes iterator currentBird currentGenome).2.1.fitness =
      currentBird.birdScore - penalty Real.sqrt (perceive mScreenSize currentBird.position
        (deps.nearestPipeFront pipes currentBird.position)) := by
  rw [updateANNBody_genome, hsqrt]
  rfl

/-- C7: on a screen of positive width and height, the penalty that `updateANN` subtracts from
the score of a bird is non-decreasing in `|xDelta|` when `yDelta` is held fixed, non-decreasing
in `|yDelta|` when `xDelta` is held fixed, and it is `0` exactly when the bird is at the pipe
reference position on both axes. -/
theorem penalty_shrinks_towards_pipe (deps : Deps ℝ P) (hsqrt : deps.sqrtf = Real.sqrt)
    (mScreenSize : Vector2u) (hx : 0 < mScreenSize.x) (hy : 0 < mScreenSize.y) :
    (∀ (pipes : P) (iterator : Nat) (bird : Bird ℝ) (genome : Genome ℝ),
      bird.birdScore - (updateANNBody deps mScreenSize pipes iterator bird genome).2.1.fitness
        = penalty Real.sqrt (perceive mScreenSize bird.position
            (deps.nearestPipeFront pipes bird.position))) ∧
    (∀ b1 p1 b2 p2 : Vector2f ℝ, b1.y - p1.y = b2.y - p2.y →
      |b1.x - p1.x| ≤ |b2.x - p2.x| →
      penalty Real.sqrt (perceive mScreenSize b1 p1) ≤
        penalty Real.sqrt (perceive mScreenSize b2 p2)) ∧
    (∀ b1 p1 b2 p2 : Vector2f ℝ, b1.x - p1.x = b2.x - p2.x →
      |b1.y - p1.y| ≤ |b2.y - p2.y| →
      penalty Real.sqrt (perceive mScreenSize b1 p1) ≤
        penalty Real.sqrt (perceive mScreenSize b2 p2)) ∧
    (∀ b p : Vector2f ℝ,
      penalty Real.sqrt (perceive mScreenSize b p) = 0 ↔ b.x = p.x ∧ b.y = p.y) := by
  refine ⟨?_, ?_, ?_, ?_⟩
  · intro pipes iterator bird genome
    rw [updateANNBody_fitness_real deps hsqrt]
    ring
  · intro b1 p1 b2 p2 hfix hle
    exact penalty_mono mScreenSize hx hy b1 p1 b2 p2 hle (by rw [hfix])
  · intro b1 p1 b2 p2 hfix hle
    exact penalty_mono mScreenSize hx hy b1 p1 b2 p2 (by rw [hfix]) hle
  · intro b p
    exact penalty_eq_zero_iff mScreenSize hx hy b p

/-- The hypotheses of `penalty_shrinks_towards_pipe` hold for the example collaborators on a
1280 x 720 screen. -/
theorem penalty_shrinks_towards_pipe_witness :
    (exampleDeps Real.sqrt).sqrtf = Real.sqrt ∧ 0 < (⟨1280, 720⟩ : Vector2u).x ∧
    0 < (⟨1280, 720⟩ : Vector2u).y ∧
    (∀ b p : Vector2f ℝ,
      penalty Real.sqrt (perceive ⟨1280, 720⟩ b p) = 0 ↔ b.x = p.x ∧ b.y = p.y) :=
  ⟨rfl, by decide, by decide,
    (penalty_shrinks_towards_pipe (exampleDeps Real.sqrt) rfl ⟨1280, 720⟩
      (by decide) (by decide)).2.2.2⟩

theorem sqrt_two_div_ten_lt_one : Real.sqrt 2 / 10 < 1 := by
  have h : Real.sqrt 2 ≤ 2 := by
    rw [Real.sqrt_le_iff]
    constructor <;> norm_num
  linarith

/-- C9: on a screen of positive width and height, the fitness `updateANN` writes for a bird
lies between `birdScore - sqrt(2) / 10` and `birdScore`; hence of two birds whose scores differ
by at least 1, the one with the higher score gets the strictly higher fitness, wherever the
birds and the pipes are. -/
theorem fitness_bounds (deps : Deps ℝ P) (hsqrt : deps.sqrtf = Real.sqrt)
    (mScreenSize : Vector2u) (hx : 0 < mScreenSize.x) (hy : 0 < mScreenSize.y) :
    (∀ (pipes : P) (iterator : Nat) (bird : Bird ℝ) (genome : Genome ℝ),
      bird.birdScore - Real.sqrt 2 / 10 ≤
          (updateANNBody deps mScreenSize pipes iterator bird genome).2.1.fitness ∧
        (updateANNBody deps mScreenSize pipes iterator bird genome).2.1.fitness ≤
          bird.birdScore) ∧
    (∀ (pipes1 pipes2 : P) (i1 i2 : Nat) (bird1 bird2 : Bird ℝ) (genome1 genome2 : Genome ℝ),
      bird1.birdScore + 1 ≤ bird2.birdScore →
      (updateANNBody deps mScreenSize pipes1 i1 bird1 genome1).2.1.fitness <
        (updateANNBody deps mScreenSize pipes2 i2 bird2 genome2).2.1.fitness) := by
  -- positive extents keep the divisions of `normalize` where the field agrees with `float`
  have _hX : (0 : ℝ) < (mScreenSize.x : ℝ) := Nat.cast_pos.mpr hx
  have _hY : (0 : ℝ) < (mScreenSize.y : ℝ) := Nat.cast_pos.mpr hy
  constructor
  · intro pipes iterator bird genome
    rw [updateANNBody_fitness_real deps hsqrt]
    have h1 := penalty_nonneg mScreenSize bird.position
      (deps.nearestPipeFront pipes bird.position)
    have h2 := penalty_le mScreenSize bird.position
      (deps.nearestPipeFront pipes bird.position)
    constructor <;> linarith
  · intro pipes1 pipes2 i1 i2 bird1 bird2 genome1 genome2 hscore
    rw [updateANNBody_fitness_real deps hsqrt, updateANNBody_fitness_real deps hsqrt]
    have h1 := penalty_nonneg mScreenSize bird1.position
      (deps.nearestPipeFront pipes1 bird1.position)
    have h2 := penalty_le mScreenSize bird2.position
      (deps.nearestPipeFront pipes2 bird2.position)
    have h3 := sqrt_two_div_ten_lt_one
    linarith

/-- The hypotheses of `fitness_bounds` hold for the example collaborators on a 1280 x 720
screen, where the dead bird of the example gets a fitness in `[10 - sqrt(2) / 10, 10]`. -/
theorem fitness_bounds_witness :
    (exampleDeps Real.sqrt).sqrtf = Real.sqrt ∧ 0 < (⟨1280, 720⟩ : Vector2u).x ∧
    0 < (⟨1280, 720⟩ : Vector2u).y ∧
    (goneBird : Bird ℝ).birdScore - Real.sqrt 2 / 10 ≤
      (updateANNBody (exampleDeps Real.sqrt) ⟨1280, 720⟩ () 0 goneBird ⟨0, []⟩).2.1.fitness ∧
    (updateANNBody (exampleDeps Real.sqrt) ⟨1280, 720⟩ () 0 goneBird ⟨0, []⟩).2.1.fitness ≤
      (goneBird : Bird ℝ).birdScore :=
  ⟨rfl, by decide, by decide,
    (fitness_bounds (exampleDeps Real.sqrt) rfl ⟨1280, 720⟩ (by decide) (by decide)).1
      () 0 goneBird ⟨0, []⟩⟩

end Fitness

/-! ## The fixed-timestep loop of `Game::run` -/

section GameLoop

theorem runInnerLoop_steps (T : Int) :
    ∀ (n fuel : Nat) (e : Int), n < fuel → (∀ m : Nat, m < n → T < e - m * T) →
      e - n * T ≤ T →
      runInnerLoop T fuel e = some (e - n * T, innerLoopCalls T n) := by
  intro n
  induction n with
  | zero =>
    intro fuel e hfuel _ hexit
    obtain ⟨f, rfl⟩ : ∃ f, fuel = f + 1 := ⟨fuel - 1, by omega⟩
    have hexit1 : ¬ e > T := by
      simp only [Nat.cast_zero, zero_mul, sub_zero] at hexit
      exact not_lt.mpr hexit
    simp only [runInnerLoop, hexit1, if_false, innerLoopCalls, Nat.cast_zero, zero_mul, sub_zero]
  | succ n ih =>
    intro fuel e hfuel hloop hexit
    obtain ⟨f, rfl⟩ : ∃ f, fuel = f + 1 := ⟨fuel - 1, by omega⟩
    have hgt : e > T := by
      have := hloop 0 (by omega)
      simpa using this
    have hrec := ih f (e - T) (by omega)
      (by
        intro m hm
        have := hloop (m + 1) (by omega)
        push_cast at this
        linarith)
      (by
        push_cast at hexit
        linarith)
    have harith : e - T - (n : Int) * T = e - ((n + 1 : Nat) : Int) * T := by
      push_cast
      ring
    simp only [runInnerLoop, hgt, if_true, hrec, innerLoopCalls, harith]

theorem innerLoopCalls_count (T : Int) (n : Nat) :
    (innerLoopCalls T n).count (LoopEffect.update T) = n ∧
      (innerLoopCalls T n).count LoopEffect.processEvents = n ∧
      (innerLoopCalls T n).length = 2 * n ∧
      ∀ d, LoopEffect.update d ∈ innerLoopCalls T n → d = T := by
  induction n with
  | zero => simp [innerLoopCalls]
  | succ n ih =>
    obtain ⟨h1, h2, h3, h4⟩ := ih
    refine ⟨?_, ?_, ?_, ?_⟩
    · simp [innerLoopCalls, h1]
    · simp [innerLoopCalls, h2]
    · simp only [innerLoopCalls, List.length_cons, h3]
      omega
    · intro d hd
      simp only [innerLoopCalls, List.mem_cons] at hd
      rcases hd with h | h | h
      · cases h
      · injection h
      · exact h4 d h

theorem exit_count_exists (T e : Int) (hT : 0 < T) : ∃ n : Nat, e - n * T ≤ T := by
  refine ⟨(e - T).toNat, ?_⟩
  rcases le_or_lt e T with h | h
  · have h0 : (e - T).toNat = 0 := Int.toNat_eq_zero.mpr (by linarith)
    rw [h0]
    simpa using h
  · have hcast : ((e - T).toNat : Int) = e - T := Int.toNat_of_nonneg (by linarith)
    rw [hcast]
    nlinarith

/-- C10: for a positive `TIME_PER_FRAME = T` and every accumulated time `e`, the inner loop of
`Game::run` ends: there is a number `n` of passes such that with more than `n` evaluations of
the condition allowed the loop returns; it makes `n` times the calls `processEvents()` and
`update(T)`, in this order, leaves the accumulator at `e - n * T`, which is at most `T` and,
when `e > T`, greater than `0`; `n` is the least number with `e - n * T <= T`, and the time
left plus the time handed to `update` is `e`. -/
theorem run_inner_loop_terminates (T e : Int) (hT : 0 < T) :
    ∃ n : Nat,
      (∀ fuel, n < fuel → runInnerLoop T fuel e = some (e - n * T, innerLoopCalls T n)) ∧
      e - n * T ≤ T ∧
      (T < e → 0 < e - n * T) ∧
      (∀ m : Nat, e - m * T ≤ T → n ≤ m) ∧
      (innerLoopCalls T n).count (LoopEffect.update T) = n ∧
      (∀ d, LoopEffect.update d ∈ innerLoopCalls T n → d = T) ∧
      (e - n * T) + ((innerLoopCalls T n).count (LoopEffect.update T) : Int) * T = e := by
  classical
  have hex := exit_count_exists T e hT
  have hspec : e - (Nat.find hex : Int) * T ≤ T := Nat.find_spec hex
  have hmin : ∀ m : Nat, m < Nat.find hex → T < e - m * T := by
    intro m hm
    exact not_le.mp (Nat.find_min hex hm)
  have hcount := innerLoopCalls_count T (Nat.find hex)
  refine ⟨Nat.find hex, ?_, hspec, ?_, ?_, hcount.1, hcount.2.2.2, ?_⟩
  · intro fuel hfuel
    exact runInnerLoop_steps T (Nat.find hex) fuel e hfuel hmin hspec
  · intro hgt
    have hpos : 0 < Nat.find hex := by
      rw [Nat.pos_iff_ne_zero]
      intro h0
      rw [h0] at hspec
      simp only [Nat.cast_zero, zero_mul, sub_zero] at hspec
      exact absurd hgt (not_lt.mpr hspec)
    have hprev := hmin (Nat.find hex - 1) (by omega)
    have hcast : ((Nat.find hex - 1 : Nat) : Int) = (Nat.find hex : Int) - 1 := by
      omega
    rw [hcast] at hprev
    linarith
  · intro m hm
    exact Nat.find_min' hex hm
  · rw [hcount.1]
    ring

/-- The hypothesis of `run_inner_loop_terminates` holds for a frame time of 16666 microseconds;
with 50000 microseconds accumulated the loop ends. -/
theorem run_inner_loop_terminates_witness :
    (0 : Int) < 16666 ∧
    ∃ n : Nat, (∀ fuel, n < fuel →
        runInnerLoop 16666 fuel 50000
          = some ((50000 : Int) - n * 16666, innerLoopCalls 16666 n)) ∧
      (50000 : Int) - n * 16666 ≤ 16666 :=
  ⟨by decide,
    let ⟨n, hrun, hle, _⟩ := run_inner_loop_terminates 16666 50000 (by decide)
    ⟨n, hrun, hle⟩⟩

end GameLoop

end FlapANN
